import Mathlib

/-!
Verification of the SlotWatch Pro monitoring engine (src/src/background.ts,
pixel-comparison variant) against its natural-language specification.

The embedding models the decoded image samples, the screenshot differ, the
monitoring state machine (start/stop/status/check cycle) and the notification
dispatch. Host I/O (chrome.storage, chrome.tabs, fetch, canvas decoding) is
modelled by explicit state passing and environment records; fallible host
calls are Except values supplied by the environment.
-/

namespace SlotWatch

/-- Constants from background.ts. -/
def DEFAULT_INTERVAL_MIN : Int := 40

def DEFAULT_INTERVAL_MAX : Int := 125

def DEFAULT_REFRESH_DELAY : Int := 3000

def CHANGE_THRESHOLD : ℚ := 5

/-- types.ts TelegramConfig. -/
structure TelegramConfig where
  botToken : String
  chatId : String
  deriving DecidableEq

/-- types.ts MonitoringConfig. Numeric fields are JS numbers, modelled as Int. -/
structure MonitoringConfig where
  isActive : Bool
  intervalMin : Int
  intervalMax : Int
  autoRefresh : Bool
  refreshDelay : Int
  lastCheckTime : Option Int
  deriving DecidableEq

/-- types.ts ReferenceSnapshot (pixel-comparison variant: no recognizedText). -/
structure ReferenceSnapshot where
  url : String
  timestamp : Int
  screenshot : String
  keyPhrases : List String
  deriving DecidableEq

/-- A decoded image sample, as produced by base64ToImageData: a browser
ImageData with a flat RGBA byte array of length 4 * width * height. -/
structure ImageData where
  width : Nat
  height : Nat
  data : List Nat
  deriving DecidableEq

/-- types.ts ComparisonResult (pixel-comparison variant, with changePercentage). -/
structure ComparisonResult where
  hasChanged : Bool
  changePercentage : ℚ
  detectedText : String
  missingPhrases : List String
  deriving DecidableEq

/-- The chrome.storage.local record relevant to the engine. -/
structure SWState where
  reference : Option ReferenceSnapshot
  telegram : Option TelegramConfig
  monitoring : Option MonitoringConfig
  deriving DecidableEq

/-- JS truthiness-based default for numbers: x || d is d when x is 0 (or the
field is absent), else x. -/
def jsOrInt (x : Option Int) (d : Int) : Int :=
  match x with
  | none => d
  | some v => if v = 0 then d else v

/-- JS nullish coalescing for booleans: x ?? d is d only when the field is
absent. -/
def jsCoalesceBool (x : Option Bool) (d : Bool) : Bool :=
  match x with
  | none => d
  | some b => b

/-- One sampled position of the pixel loop in compareScreenshots: true when
any of the R, G, B channels at byte offset i differs by strictly more than 30.
Out-of-range reads model the JS (arr[i] ?? 0) fallback. -/
def pixelDiffers (refData curData : List Nat) (i : Nat) : Bool :=
  let rDiff := Int.natAbs ((refData.getD i 0 : Int) - (curData.getD i 0 : Int))
  let gDiff := Int.natAbs ((refData.getD (i + 1) 0 : Int) - (curData.getD (i + 1) 0 : Int))
  let bDiff := Int.natAbs ((refData.getD (i + 2) 0 : Int) - (curData.getD (i + 2) 0 : Int))
  decide (30 < rDiff) || decide (30 < gDiff) || decide (30 < bDiff)

/-- The sampling loop of compareScreenshots:
for (let i = 0; i < refData.length - 3; i += 16) with the early break when
i + 2 >= curData.length, counting positions where pixelDiffers holds.
Fuel bounds the number of iterations; diffPixels supplies enough. -/
def diffLoop (refData curData : List Nat) : Nat → Nat → Nat
  | _, 0 => 0
  | i, fuel + 1 =>
    if i < refData.length - 3 then
      if curData.length ≤ i + 2 then 0
      else
        (if pixelDiffers refData curData i then 1 else 0) +
          diffLoop refData curData (i + 16) fuel
    else 0

/-- diffPixels as computed by compareScreenshots for equal-dimension images. -/
def diffPixels (refData curData : List Nat) : Nat :=
  diffLoop refData curData 0 (refData.length + 1)

/-- parseFloat(x.toFixed(2)): round to two decimal places. -/
def round2 (q : ℚ) : ℚ := (round (q * 100) : ℤ) / 100

/-- compareScreenshots on two decoded image samples (the base64 decoding step
is host I/O, handled separately in compareScreenshotsRun). -/
def compareScreenshots (refImageData curImageData : ImageData) : ComparisonResult :=
  if refImageData.width ≠ curImageData.width ∨ refImageData.height ≠ curImageData.height then
    { hasChanged := true
      changePercentage := 100
      detectedText := ""
      missingPhrases := ["Page layout changed"] }
  else
    let refData := refImageData.data
    let curData := curImageData.data
    let diffPx := diffPixels refData curData
    let totalPixels : ℚ := (refData.length : ℚ) / 4
    let sampledPixels : ℚ := totalPixels / 4
    let changePercentage : ℚ := ((diffPx : ℚ) / sampledPixels) * 100
    { hasChanged := decide (changePercentage > CHANGE_THRESHOLD)
      changePercentage := round2 changePercentage
      detectedText := ""
      missingPhrases :=
        if changePercentage > CHANGE_THRESHOLD then ["Visual changes detected"] else [] }

/-- Number of loop iterations of the sampling loop starting at byte offset i
on a reference array of length len (no early break case). -/
def itersFrom (len i : Nat) : Nat := (len - 3 - i + 15) / 16

/-- The byte offsets the sampling loop visits on an image whose data array has
length len: 0, 16, 32, ... while below len - 3. -/
def sampledPositions (len : Nat) : List Nat := List.range' 0 (itersFrom len 0) 16

theorem range'_cons (s n step : Nat) :
    List.range' s (n + 1) step = s :: List.range' (s + step) n step := rfl

/-- The fuel-indexed loop computes the countP of pixelDiffers over the
arithmetic progression of visited offsets, for equal-length data arrays
(where the early break never fires). -/
theorem diffLoop_eq_countP (r c : List Nat) (hlen : c.length = r.length) :
    ∀ fuel i, itersFrom r.length i ≤ fuel →
      diffLoop r c i fuel =
        (List.range' i (itersFrom r.length i) 16).countP (fun x => pixelDiffers r c x) := by
  intro fuel
  induction fuel with
  | zero =>
    intro i h
    have h0 : itersFrom r.length i = 0 := Nat.le_zero.mp h
    rw [h0]
    rfl
  | succ fuel ih =>
    intro i h
    by_cases hi : i < r.length - 3
    · have hbreak : ¬ c.length ≤ i + 2 := by
        rw [hlen]; omega
      have hiter : itersFrom r.length i = itersFrom r.length (i + 16) + 1 := by
        unfold itersFrom
        omega
      have hfuel : itersFrom r.length (i + 16) ≤ fuel := by omega
      rw [hiter, range'_cons, List.countP_cons]
      show (if i < r.length - 3 then
          if c.length ≤ i + 2 then 0
          else (if pixelDiffers r c i then 1 else 0) + diffLoop r c (i + 16) fuel
        else 0) = _
      rw [if_pos hi, if_neg hbreak, ih (i + 16) hfuel]
      omega
    · have h0 : itersFrom r.length i = 0 := by
        unfold itersFrom
        omega
      rw [h0]
      show (if i < r.length - 3 then _ else 0) = _
      rw [if_neg hi]
      rfl

/-- diffPixels equals the count of differing positions among the sampled
positions, for equal-length data arrays. -/
theorem diffPixels_eq_countP (r c : List Nat) (hlen : c.length = r.length) :
    diffPixels r c =
      (sampledPositions r.length).countP (fun x => pixelDiffers r c x) := by
  unfold diffPixels sampledPositions
  exact diffLoop_eq_countP r c hlen (r.length + 1) 0 (by unfold itersFrom; omega)

/-- The number of sampled positions. -/
theorem sampledPositions_length (len : Nat) :
    (sampledPositions len).length = itersFrom len 0 := by
  unfold sampledPositions
  exact List.length_range' 0 16 (itersFrom len 0)

/-- round is monotone (via round x = floor (x + 1/2)). -/
theorem round_mono_rat {x y : ℚ} (h : x ≤ y) : round x ≤ round y := by
  rw [round_eq, round_eq]
  exact Int.floor_le_floor (by linarith)

theorem round2_mono {x y : ℚ} (h : x ≤ y) : round2 x ≤ round2 y := by
  unfold round2
  have := round_mono_rat (mul_le_mul_of_nonneg_right h (by norm_num : (0 : ℚ) ≤ 100))
  have hcast : ((round (x * 100) : ℤ) : ℚ) ≤ ((round (y * 100) : ℤ) : ℚ) := by
    exact_mod_cast this
  linarith

theorem round2_zero : round2 0 = 0 := by
  unfold round2
  norm_num

theorem round2_hundred : round2 100 = 100 := by
  unfold round2
  norm_num [round_eq]

/-- The payload of a MessageResponse (the untyped data field, restricted to
the shapes the modelled handlers produce). -/
inductive ResponseData where
  | noData : ResponseData
  | monitoringData : Option MonitoringConfig → ResponseData
  deriving DecidableEq

/-- types.ts MessageResponse. -/
structure MessageResponse where
  success : Bool
  data : ResponseData
  error : Option String
  deriving DecidableEq

/-- getRandomInterval(min, max) = Math.floor(Math.random() * (max - min + 1)) + min,
with the Math.random() draw passed in as rand. -/
def getRandomInterval (min max : Int) (rand : ℚ) : Int :=
  Int.floor (rand * ((max : ℚ) - (min : ℚ) + 1)) + min

/-- The guard (not data.telegram or empty botToken or empty chatId) of
startMonitoring, using JS string truthiness (empty string is falsy). -/
def telegramNotConfigured (t : Option TelegramConfig) : Bool :=
  match t with
  | none => true
  | some c => c.botToken == "" || c.chatId == ""

/-- Outcome of a user-facing action that may also write storage and arm the
alarm: the response, the storage state after the call, and the armed alarm
period in minutes (none when no alarm was created). -/
structure StartResult where
  response : MessageResponse
  state : SWState
  alarm : Option ℚ
  deriving DecidableEq

/-- startMonitoring from background.ts: guards on reference and telegram
credentials, then persists isActive := true with defaulted fields and arms
the alarm with a randomized interval. -/
def startMonitoring (st : SWState) (rand : ℚ) : StartResult :=
  match st.reference with
  | none =>
    { response := { success := false, data := ResponseData.noData,
                    error := some "No reference snapshot captured" }
      state := st
      alarm := none }
  | some _ =>
    if telegramNotConfigured st.telegram then
      { response := { success := false, data := ResponseData.noData,
                      error := some "Telegram settings not configured" }
        state := st
        alarm := none }
    else
      let config : MonitoringConfig :=
        { isActive := true
          intervalMin := jsOrInt (st.monitoring.map (fun m => m.intervalMin)) DEFAULT_INTERVAL_MIN
          intervalMax := jsOrInt (st.monitoring.map (fun m => m.intervalMax)) DEFAULT_INTERVAL_MAX
          autoRefresh := jsCoalesceBool (st.monitoring.map (fun m => m.autoRefresh)) true
          refreshDelay := jsOrInt (st.monitoring.map (fun m => m.refreshDelay)) DEFAULT_REFRESH_DELAY
          lastCheckTime := st.monitoring.bind (fun m => m.lastCheckTime) }
      let intervalMinutes : ℚ :=
        ((getRandomInterval config.intervalMin config.intervalMax rand : Int) : ℚ) / 60
      { response := { success := true, data := ResponseData.noData, error := none }
        state := { st with monitoring := some config }
        alarm := some intervalMinutes }

/-- Outcome of stopMonitoring: response, new storage state, and whether the
alarm was cleared. -/
structure StopResult where
  response : MessageResponse
  state : SWState
  alarmCleared : Bool
  deriving DecidableEq

/-- stopMonitoring from background.ts: persists isActive := false with
defaulted fields and clears the alarm. -/
def stopMonitoring (st : SWState) : StopResult :=
  let config : MonitoringConfig :=
    { isActive := false
      intervalMin := jsOrInt (st.monitoring.map (fun m => m.intervalMin)) DEFAULT_INTERVAL_MIN
      intervalMax := jsOrInt (st.monitoring.map (fun m => m.intervalMax)) DEFAULT_INTERVAL_MAX
      autoRefresh := jsCoalesceBool (st.monitoring.map (fun m => m.autoRefresh)) true
      refreshDelay := jsOrInt (st.monitoring.map (fun m => m.refreshDelay)) DEFAULT_REFRESH_DELAY
      lastCheckTime := st.monitoring.bind (fun m => m.lastCheckTime) }
  { response := { success := true, data := ResponseData.noData, error := none }
    state := { st with monitoring := some config }
    alarmCleared := true }

/-- getStatus from background.ts: always succeeds with the stored monitoring
config (possibly absent) as data. -/
def getStatus (st : SWState) : MessageResponse :=
  { success := true, data := ResponseData.monitoringData st.monitoring, error := none }

/-- The fetch call inside sendTelegramNotification: none models a thrown
network error, some ok models a completed response with response.ok = ok. -/
def telegramFetch (fetchResult : Option Bool) : Except String Bool :=
  match fetchResult with
  | none => Except.error "network error"
  | some ok => Except.ok ok

/-- sendTelegramNotification from background.ts. Building the request URL
reads config.botToken before the try block, so a missing config object throws
a TypeError to the caller; once the config object exists, every fetch outcome
(network error or non-ok response) is caught and only logged. -/
def sendTelegramNotification (config : Option TelegramConfig) (fetchResult : Option Bool) :
    Except String Unit :=
  match config with
  | none => Except.error "TypeError: cannot read botToken of undefined"
  | some _ =>
    match telegramFetch fetchResult with
    | Except.ok _ => Except.ok ()
    | Except.error _ => Except.ok ()

/-- compareScreenshots at the base64 level: both inputs are decoded inside a
try block whose catch rethrows a fixed comparison error; on success the pure
pixel comparison runs. decode is the host base64ToImageData primitive. -/
def compareScreenshotsRun (decode : String → Except String ImageData)
    (referenceBase64 currentBase64 : String) : Except String ComparisonResult :=
  match decode referenceBase64 with
  | Except.error _ => Except.error "Failed to compare screenshots"
  | Except.ok refImg =>
    match decode currentBase64 with
    | Except.error _ => Except.error "Failed to compare screenshots"
    | Except.ok curImg => Except.ok (compareScreenshots refImg curImg)

/-- Observable effects of one checkForChanges cycle: the monitoring record
written to storage (none when no write happened), whether the capture step
was reached, whether the Telegram send was invoked, and whether the local
browser notification was shown. -/
structure CheckEffects where
  write : Option MonitoringConfig
  captureAttempted : Bool
  telegramAttempted : Bool
  localNotified : Bool
  deriving DecidableEq

/-- Host environment of one checkForChanges cycle: the active tab id (none
when no tab or tab id), the captureVisibleTab outcome, the base64 decoder,
the fetch outcome of the Telegram send, and Date.now(). -/
structure CheckEnv where
  activeTab : Option Nat
  captureResult : Except String String
  decode : String → Except String ImageData
  fetchResult : Option Bool
  now : Int

def noEffects : CheckEffects :=
  { write := none, captureAttempted := false, telegramAttempted := false,
    localNotified := false }

/-- checkForChanges from background.ts. The whole body runs in a try whose
catch only logs, so any thrown step aborts the remaining steps silently. -/
def checkForChanges (st : SWState) (env : CheckEnv) : CheckEffects :=
  match st.reference, st.monitoring with
  | some ref, some m =>
    if m.isActive then
      match env.activeTab with
      | none => noEffects
      | some _ =>
        match env.captureResult with
        | Except.error _ => { noEffects with captureAttempted := true }
        | Except.ok screenshot =>
          match compareScreenshotsRun env.decode ref.screenshot screenshot with
          | Except.error _ => { noEffects with captureAttempted := true }
          | Except.ok comparison =>
            let config : MonitoringConfig :=
              { isActive := m.isActive || false
                intervalMin := jsOrInt (some m.intervalMin) DEFAULT_INTERVAL_MIN
                intervalMax := jsOrInt (some m.intervalMax) DEFAULT_INTERVAL_MAX
                autoRefresh := jsCoalesceBool (some m.autoRefresh) true
                refreshDelay := jsOrInt (some m.refreshDelay) DEFAULT_REFRESH_DELAY
                lastCheckTime := some env.now }
            if comparison.hasChanged then
              match sendTelegramNotification st.telegram env.fetchResult with
              | Except.error _ =>
                { write := some config, captureAttempted := true,
                  telegramAttempted := true, localNotified := false }
              | Except.ok _ =>
                { write := some config, captureAttempted := true,
                  telegramAttempted := true, localNotified := true }
            else
              { write := some config, captureAttempted := true,
                telegramAttempted := false, localNotified := false }
    else noEffects
  | _, _ => noEffects

/-! Concrete fixtures used by witnesses and counterexamples. -/

/-- A 1 by 1 black image sample. -/
def imgA : ImageData := ⟨1, 1, [0, 0, 0, 255]⟩

/-- A 1 by 1 white image sample. -/
def imgB : ImageData := ⟨1, 1, [255, 255, 255, 255]⟩

/-- A 2 by 1 image sample (different width than imgA). -/
def imgWide : ImageData := ⟨2, 1, [0, 0, 0, 255, 0, 0, 0, 255]⟩

/-- A 2 by 2 black image sample (pixel count divisible by 4). -/
def imgC : ImageData :=
  ⟨2, 2, [0, 0, 0, 255, 0, 0, 0, 255, 0, 0, 0, 255, 0, 0, 0, 255]⟩

/-- A 2 by 2 white image sample. -/
def imgD : ImageData :=
  ⟨2, 2, [255, 255, 255, 255, 255, 255, 255, 255, 255, 255, 255, 255, 255, 255, 255, 255]⟩

/-- A stored reference snapshot whose screenshot decodes through the fixtures. -/
def refSnap : ReferenceSnapshot := ⟨"https://example.com", 0, "refB64", []⟩

/-- Monitoring config with isActive = true. -/
def activeMon : MonitoringConfig := ⟨true, 60, 90, true, 3000, none⟩

/-- Monitoring config with isActive = false. -/
def inactiveMon : MonitoringConfig := ⟨false, 60, 90, true, 3000, some 5⟩

/-- Non-empty telegram credentials. -/
def tgConf : TelegramConfig := ⟨"token", "chat"⟩

/-- A decoder sending the reference screenshot to a 1 by 1 image and any
other screenshot to a 2 by 1 image, so the comparison reports a change. -/
def decodeChanged : String → Except String ImageData :=
  fun s => if s == "refB64" then Except.ok imgA else Except.ok imgWide

/-- Check environment where the capture step throws. -/
def envCaptureFail : CheckEnv :=
  ⟨some 1, Except.error "Failed to capture tab", decodeChanged, some true, 12345⟩

/-- Check environment where capture succeeds and the comparison reports a
change; the Telegram fetch completes with an ok response. -/
def envChangeOk : CheckEnv :=
  ⟨some 1, Except.ok "curB64", decodeChanged, some true, 12345⟩

/-- Check environment like envChangeOk but whose Telegram fetch throws a
network error. -/
def envChangeFetchFail : CheckEnv :=
  ⟨some 1, Except.ok "curB64", decodeChanged, none, 12345⟩

/-! Claim theorems. -/

/-- C2: for every pair of image samples whose pixel dimensions differ in
width or height, compareScreenshots short-circuits and returns
hasChanged = true and changePercentage = 100 with the layout-change reason,
independently of the pixel data (the result is a fixed record, so no
pixel-wise comparison can influence it). -/
theorem compareScreenshots_dims_differ (ref cur : ImageData)
    (h : ref.width ≠ cur.width ∨ ref.height ≠ cur.height) :
    compareScreenshots ref cur =
      { hasChanged := true, changePercentage := 100, detectedText := "",
        missingPhrases := ["Page layout changed"] } := by
  unfold compareScreenshots
  rw [if_pos h]

/-- Witness for C2 at the concrete pair imgA (1 by 1) and imgWide (2 by 1). -/
theorem compareScreenshots_dims_differ_witness :
    imgA.width ≠ imgWide.width ∧
    compareScreenshots imgA imgWide =
      { hasChanged := true, changePercentage := 100, detectedText := "",
        missingPhrases := ["Page layout changed"] } :=
  ⟨by decide, compareScreenshots_dims_differ imgA imgWide (Or.inl (by decide))⟩

/-- Every sampled position of two identical data arrays is unchanged. -/
theorem pixelDiffers_self (r : List Nat) (i : Nat) : pixelDiffers r r i = false := by
  unfold pixelDiffers
  simp

/-- C6: for every pair of image samples of equal dimensions whose pixel data
are identical, compareScreenshots returns hasChanged = false and
changePercentage = 0. -/
theorem compareScreenshots_identical (ref cur : ImageData)
    (hw : ref.width = cur.width) (hh : ref.height = cur.height)
    (hdata : ref.data = cur.data)
    (hr : ref.data.length = 4 * ref.width * ref.height)
    (hpos : 0 < ref.width * ref.height) :
    (compareScreenshots ref cur).hasChanged = false ∧
    (compareScreenshots ref cur).changePercentage = 0 := by
  have hlen : cur.data.length = ref.data.length := by rw [hdata]
  have hd : diffPixels ref.data cur.data = 0 := by
    rw [diffPixels_eq_countP ref.data cur.data hlen]
    apply List.countP_eq_zero.mpr
    intro a _
    rw [hdata]
    simp [pixelDiffers_self]
  unfold compareScreenshots
  rw [if_neg (by simp [hw, hh])]
  simp only [hd]
  norm_num [round2_zero, CHANGE_THRESHOLD]

/-- Witness for C6 at the concrete pair imgA, imgA. -/
theorem compareScreenshots_identical_witness :
    (compareScreenshots imgA imgA).hasChanged = false ∧
    (compareScreenshots imgA imgA).changePercentage = 0 :=
  compareScreenshots_identical imgA imgA rfl rfl rfl (by decide) (by decide)

/-- C10: getStatus always succeeds: for every storage state it returns
success = true, no error, and the stored monitoring config (possibly absent)
as data. -/
theorem getStatus_never_fails (st : SWState) :
    (getStatus st).success = true ∧ (getStatus st).error = none ∧
    (getStatus st).data = ResponseData.monitoringData st.monitoring :=
  ⟨rfl, rfl, rfl⟩

/-- C7: when checkForChanges runs while the stored config is inactive (or the
monitoring record or the reference snapshot is absent), the cycle aborts
before any capture: no storage write, no capture, and no notification of
either kind. -/
theorem checkForChanges_inactive_aborts (st : SWState) (env : CheckEnv)
    (h : st.reference = none ∨ st.monitoring = none ∨
      ∃ m, st.monitoring = some m ∧ m.isActive = false) :
    checkForChanges st env = noEffects := by
  unfold checkForChanges
  rcases h with h | h | ⟨m, hm, hact⟩
  · rw [h]
  · rw [h]
    cases st.reference <;> rfl
  · rw [hm]
    cases st.reference with
    | none => rfl
    | some r => simp [hact]

/-- Witness for C7: a cycle raced with a stop (isActive = false) is a no-op. -/
theorem checkForChanges_inactive_aborts_witness :
    checkForChanges ⟨some refSnap, some tgConf, some inactiveMon⟩ envChangeOk = noEffects :=
  checkForChanges_inactive_aborts _ _ (Or.inr (Or.inr ⟨inactiveMon, rfl, rfl⟩))

/-- The JS numeric default pattern is idempotent when the default is nonzero:
applying x || d to a value that already went through x || d changes nothing. -/
theorem jsOrInt_idem (x : Option Int) (d : Int) (hd : d ≠ 0) :
    jsOrInt (some (jsOrInt x d)) d = jsOrInt x d := by
  unfold jsOrInt
  cases x with
  | none => simp [hd]
  | some v =>
    by_cases hv : v = 0 <;> simp [hv, hd]

/-- C8: stopMonitoring is idempotent: from every starting storage state,
both calls succeed with no error, each leaves a persisted config with
isActive = false, and the state after the second call equals the state after
the first. -/
theorem stopMonitoring_idempotent (st : SWState) :
    (stopMonitoring st).response =
      { success := true, data := ResponseData.noData, error := none } ∧
    (stopMonitoring (stopMonitoring st).state).response =
      { success := true, data := ResponseData.noData, error := none } ∧
    (∃ c1, (stopMonitoring st).state.monitoring = some c1 ∧ c1.isActive = false) ∧
    (∃ c2, (stopMonitoring (stopMonitoring st).state).state.monitoring = some c2 ∧
      c2.isActive = false) ∧
    (stopMonitoring (stopMonitoring st).state).state = (stopMonitoring st).state := by
  obtain ⟨sref, stel, smon⟩ := st
  refine ⟨rfl, rfl, ⟨_, rfl, rfl⟩, ⟨_, rfl, rfl⟩, ?_⟩
  have h1 : jsOrInt (some (jsOrInt (smon.map fun m => m.intervalMin) DEFAULT_INTERVAL_MIN))
      DEFAULT_INTERVAL_MIN = jsOrInt (smon.map fun m => m.intervalMin) DEFAULT_INTERVAL_MIN :=
    jsOrInt_idem _ _ (by norm_num [DEFAULT_INTERVAL_MIN])
  have h2 : jsOrInt (some (jsOrInt (smon.map fun m => m.intervalMax) DEFAULT_INTERVAL_MAX))
      DEFAULT_INTERVAL_MAX = jsOrInt (smon.map fun m => m.intervalMax) DEFAULT_INTERVAL_MAX :=
    jsOrInt_idem _ _ (by norm_num [DEFAULT_INTERVAL_MAX])
  have h3 : jsOrInt (some (jsOrInt (smon.map fun m => m.refreshDelay) DEFAULT_REFRESH_DELAY))
      DEFAULT_REFRESH_DELAY = jsOrInt (smon.map fun m => m.refreshDelay) DEFAULT_REFRESH_DELAY :=
    jsOrInt_idem _ _ (by norm_num [DEFAULT_REFRESH_DELAY])
  unfold stopMonitoring
  simp [jsCoalesceBool, h1, h2, h3]

/-- C4: startMonitoring fails with the no-reference error when no reference
snapshot is stored; fails with the telegram-not-configured error when a
reference exists but the credentials are absent or empty; otherwise succeeds,
persists isActive = true, and arms the scheduler. On either failure the
storage state is unchanged and no alarm is armed. -/
theorem startMonitoring_guards (st : SWState) (rand : ℚ) :
    (st.reference = none →
      startMonitoring st rand =
        { response := { success := false, data := ResponseData.noData,
                        error := some "No reference snapshot captured" }
          state := st, alarm := none }) ∧
    (st.reference ≠ none → telegramNotConfigured st.telegram = true →
      startMonitoring st rand =
        { response := { success := false, data := ResponseData.noData,
                        error := some "Telegram settings not configured" }
          state := st, alarm := none }) ∧
    (st.reference ≠ none → telegramNotConfigured st.telegram = false →
      (startMonitoring st rand).response =
        { success := true, data := ResponseData.noData, error := none } ∧
      (∃ c, (startMonitoring st rand).state.monitoring = some c ∧ c.isActive = true) ∧
      (startMonitoring st rand).alarm ≠ none ∧
      (startMonitoring st rand).state.reference = st.reference ∧
      (startMonitoring st rand).state.telegram = st.telegram) := by
  refine ⟨?_, ?_, ?_⟩
  · intro h
    unfold startMonitoring
    rw [h]
  · intro h htg
    obtain ⟨r, hr⟩ := Option.ne_none_iff_exists'.mp h
    unfold startMonitoring
    rw [hr]
    simp [htg]
  · intro h htg
    obtain ⟨r, hr⟩ := Option.ne_none_iff_exists'.mp h
    unfold startMonitoring
    rw [hr]
    simp [htg]

/-- Witness for C4: the three guard branches at concrete storage states. -/
theorem startMonitoring_guards_witness :
    (startMonitoring ⟨none, none, none⟩ 0 =
      { response := { success := false, data := ResponseData.noData,
                      error := some "No reference snapshot captured" }
        state := ⟨none, none, none⟩, alarm := none }) ∧
    (startMonitoring ⟨some refSnap, some ⟨"", "chat"⟩, none⟩ 0 =
      { response := { success := false, data := ResponseData.noData,
                      error := some "Telegram settings not configured" }
        state := ⟨some refSnap, some ⟨"", "chat"⟩, none⟩, alarm := none }) ∧
    ((startMonitoring ⟨some refSnap, some tgConf, none⟩ 0).response =
      { success := true, data := ResponseData.noData, error := none } ∧
     (∃ c, (startMonitoring ⟨some refSnap, some tgConf, none⟩ 0).state.monitoring = some c ∧
        c.isActive = true) ∧
     (startMonitoring ⟨some refSnap, some tgConf, none⟩ 0).alarm ≠ none ∧
     (startMonitoring ⟨some refSnap, some tgConf, none⟩ 0).state.reference =
       (⟨some refSnap, some tgConf, none⟩ : SWState).reference ∧
     (startMonitoring ⟨some refSnap, some tgConf, none⟩ 0).state.telegram =
       (⟨some refSnap, some tgConf, none⟩ : SWState).telegram) :=
  ⟨(startMonitoring_guards ⟨none, none, none⟩ 0).1 rfl,
   (startMonitoring_guards ⟨some refSnap, some ⟨"", "chat"⟩, none⟩ 0).2.1
     (by decide) (by decide),
   (startMonitoring_guards ⟨some refSnap, some tgConf, none⟩ 0).2.2
     (by decide) (by decide)⟩

/-- C3 (amended): in a check cycle that passes the isActive guard and
resolves a target tab, the monitoring config with lastCheckTime = now is
persisted exactly when the capture step and the comparison step both
succeed; when either of them throws, the error is caught, the cycle aborts,
and no storage write happens. -/
theorem checkForChanges_lastCheckTime_iff (st : SWState) (env : CheckEnv)
    (ref : ReferenceSnapshot) (m : MonitoringConfig)
    (href : st.reference = some ref) (hm : st.monitoring = some m)
    (hact : m.isActive = true) (htab : env.activeTab ≠ none) :
    (∀ s cmp, env.captureResult = Except.ok s →
      compareScreenshotsRun env.decode ref.screenshot s = Except.ok cmp →
      ∃ cfg, (checkForChanges st env).write = some cfg ∧
        cfg.lastCheckTime = some env.now) ∧
    (∀ e, env.captureResult = Except.error e →
      (checkForChanges st env).write = none) ∧
    (∀ s e, env.captureResult = Except.ok s →
      compareScreenshotsRun env.decode ref.screenshot s = Except.error e →
      (checkForChanges st env).write = none) := by
  obtain ⟨t, ht⟩ := Option.ne_none_iff_exists'.mp htab
  refine ⟨?_, ?_, ?_⟩
  · intro s cmp hcap hcmp
    unfold checkForChanges
    rw [href, hm]
    simp only [hact, ht, hcap, hcmp, if_true]
    by_cases hch : cmp.hasChanged = true
    · rw [if_pos hch]
      cases sendTelegramNotification st.telegram env.fetchResult <;>
        exact ⟨_, rfl, rfl⟩
    · rw [if_neg hch]
      exact ⟨_, rfl, rfl⟩
  · intro e hcap
    unfold checkForChanges
    rw [href, hm]
    simp only [hact, ht, hcap, if_true]
    rfl
  · intro s e hcap hcmp
    unfold checkForChanges
    rw [href, hm]
    simp only [hact, ht, hcap, hcmp, if_true]
    rfl

/-- Witness for C3 (amended): a fully successful cycle persists
lastCheckTime = now. -/
theorem checkForChanges_lastCheckTime_iff_witness :
    ∃ cfg, (checkForChanges ⟨some refSnap, some tgConf, some activeMon⟩ envChangeOk).write =
      some cfg ∧ cfg.lastCheckTime = some envChangeOk.now :=
  (checkForChanges_lastCheckTime_iff ⟨some refSnap, some tgConf, some activeMon⟩
      envChangeOk refSnap activeMon rfl rfl rfl (by decide)).1
    "curB64" ⟨true, 100, "", ["Page layout changed"]⟩ rfl rfl

/-- Counterexample to C3 as stated: a cycle that passes the isActive guard
and resolves a tab, but whose capture step throws, performs no storage write
at all, so lastCheckTime is not advanced. -/
theorem checkForChanges_capture_fail_no_write :
    (⟨some refSnap, some tgConf, some activeMon⟩ : SWState).reference ≠ none ∧
    activeMon.isActive = true ∧
    envCaptureFail.activeTab ≠ none ∧
    envCaptureFail.captureResult = Except.error "Failed to capture tab" ∧
    (checkForChanges ⟨some refSnap, some tgConf, some activeMon⟩ envCaptureFail).write = none := by
  exact ⟨by decide, rfl, by decide, rfl, rfl⟩

/-- C9 (amended): when a Telegram config object is stored (its fields may be
arbitrary, including empty), every transport outcome of the Telegram send is
caught inside sendTelegramNotification, and the local browser-notification
path is reached on every changed comparison; the best-effort guarantee does
not extend to a storage state with no Telegram config at all, where the send
throws before its try block. -/
theorem notification_dispatch_best_effort (st : SWState) (env : CheckEnv)
    (ref : ReferenceSnapshot) (m : MonitoringConfig) (tg : TelegramConfig)
    (href : st.reference = some ref) (hm : st.monitoring = some m)
    (hact : m.isActive = true) (htg : st.telegram = some tg)
    (htab : env.activeTab ≠ none) :
    (∀ fetchOutcome, sendTelegramNotification st.telegram fetchOutcome = Except.ok ()) ∧
    (∀ s cmp, env.captureResult = Except.ok s →
      compareScreenshotsRun env.decode ref.screenshot s = Except.ok cmp →
      cmp.hasChanged = true →
      (checkForChanges st env).localNotified = true ∧
      (checkForChanges st env).telegramAttempted = true) := by
  obtain ⟨t, ht⟩ := Option.ne_none_iff_exists'.mp htab
  have hsend : ∀ fetchOutcome, sendTelegramNotification st.telegram fetchOutcome = Except.ok () := by
    intro fetchOutcome
    rw [htg]
    unfold sendTelegramNotification telegramFetch
    cases fetchOutcome <;> rfl
  refine ⟨hsend, ?_⟩
  intro s cmp hcap hcmp hch
  unfold checkForChanges
  rw [href, hm]
  simp only [hact, ht, hcap, hcmp, if_true]
  rw [if_pos hch, hsend env.fetchResult]
  exact ⟨rfl, rfl⟩

/-- Witness for C9 (amended): with credentials stored and the Telegram fetch
throwing a network error, the local notification is still shown. -/
theorem notification_dispatch_best_effort_witness :
    (checkForChanges ⟨some refSnap, some tgConf, some activeMon⟩ envChangeFetchFail).localNotified = true ∧
    (checkForChanges ⟨some refSnap, some tgConf, some activeMon⟩ envChangeFetchFail).telegramAttempted = true :=
  (notification_dispatch_best_effort ⟨some refSnap, some tgConf, some activeMon⟩
      envChangeFetchFail refSnap activeMon tgConf rfl rfl rfl rfl (by decide)).2
    "curB64" ⟨true, 100, "", ["Page layout changed"]⟩ rfl rfl rfl

/-- Counterexample to C9 as stated: with no stored Telegram config, a changed
comparison makes the Telegram send throw on the missing config object before
its try block; checkForChanges catches the error and the local
browser-notification path is never attempted. -/
theorem local_notification_skipped_without_telegram :
    (⟨some refSnap, none, some activeMon⟩ : SWState).telegram = none ∧
    compareScreenshotsRun decodeChanged refSnap.screenshot "curB64" =
      Except.ok ⟨true, 100, "", ["Page layout changed"]⟩ ∧
    (checkForChanges ⟨some refSnap, none, some activeMon⟩ envChangeOk).telegramAttempted = true ∧
    (checkForChanges ⟨some refSnap, none, some activeMon⟩ envChangeOk).localNotified = false := by
  exact ⟨rfl, rfl, rfl, rfl⟩

/-- Unfolding of compareScreenshots in the equal-dimensions branch. -/
theorem compareScreenshots_eq_dims (ref cur : ImageData)
    (hw : ref.width = cur.width) (hh : ref.height = cur.height) :
    compareScreenshots ref cur =
      { hasChanged := decide ((((diffPixels ref.data cur.data : ℚ) /
          ((ref.data.length : ℚ) / 4 / 4)) * 100) > CHANGE_THRESHOLD)
        changePercentage := round2 (((diffPixels ref.data cur.data : ℚ) /
          ((ref.data.length : ℚ) / 4 / 4)) * 100)
        detectedText := ""
        missingPhrases := if (((diffPixels ref.data cur.data : ℚ) /
            ((ref.data.length : ℚ) / 4 / 4)) * 100) > CHANGE_THRESHOLD
          then ["Visual changes detected"] else [] } := by
  unfold compareScreenshots
  rw [if_neg (by simp [hw, hh])]

/-- C1 (amended): for equal-dimension samples whose pixel count is divisible
by 4 (the pixel sampling stride), changePercentage equals 100 times the
number of sampled positions whose R, G or B channel differs by more than 30,
divided by the number of sampled positions, rounded to 2 decimal places, and
hasChanged holds exactly when the unrounded percentage exceeds the threshold
5. (When the pixel count is not divisible by 4 the code divides by
width*height/4 instead of the sampled-position count, so the claimed formula
fails; see the counterexample.) -/
theorem compareScreenshots_percentage_formula (ref cur : ImageData)
    (hw : ref.width = cur.width) (hh : ref.height = cur.height)
    (hr : ref.data.length = 4 * ref.width * ref.height)
    (hc : cur.data.length = 4 * cur.width * cur.height)
    (hpos : 0 < ref.width * ref.height)
    (hdvd : 4 ∣ ref.width * ref.height) :
    (compareScreenshots ref cur).changePercentage =
      round2 (100 * (((sampledPositions ref.data.length).countP
          (fun i => pixelDiffers ref.data cur.data i) : ℚ)) /
        (((sampledPositions ref.data.length).length : ℚ))) ∧
    ((compareScreenshots ref cur).hasChanged = true ↔
      100 * (((sampledPositions ref.data.length).countP
          (fun i => pixelDiffers ref.data cur.data i) : ℚ)) /
        (((sampledPositions ref.data.length).length : ℚ)) > 5) := by
  obtain ⟨k, hk⟩ := hdvd
  have hlen : cur.data.length = ref.data.length := by rw [hr, hc, hw, hh]
  have hlen16 : ref.data.length = 16 * k := by rw [hr, mul_assoc, hk]; ring
  rw [hk] at hpos
  have hk0 : (k : ℚ) ≠ 0 := by
    have hkpos : 0 < k := by omega
    exact_mod_cast hkpos.ne'
  have hn : (sampledPositions ref.data.length).length = k := by
    rw [sampledPositions_length, hlen16]
    unfold itersFrom
    omega
  have hd := diffPixels_eq_countP ref.data cur.data hlen
  have hq : ((diffPixels ref.data cur.data : ℚ) / ((ref.data.length : ℚ) / 4 / 4)) * 100 =
      100 * (((sampledPositions ref.data.length).countP
          (fun i => pixelDiffers ref.data cur.data i) : ℚ)) /
        (((sampledPositions ref.data.length).length : ℚ)) := by
    rw [hd, hn, hlen16]
    push_cast
    field_simp
    ring
  rw [compareScreenshots_eq_dims ref cur hw hh]
  constructor
  · show round2 _ = _
    rw [hq]
  · show decide _ = true ↔ _
    rw [decide_eq_true_eq, hq, CHANGE_THRESHOLD]

/-- Witness for C1 (amended) at a 2 by 2 pair with every sampled position
differing: one position is sampled, it differs, and the result is 100
with hasChanged = true. -/
theorem compareScreenshots_percentage_formula_witness :
    (compareScreenshots imgC imgD).changePercentage =
      round2 (100 * (((sampledPositions imgC.data.length).countP
          (fun i => pixelDiffers imgC.data imgD.data i) : ℚ)) /
        (((sampledPositions imgC.data.length).length : ℚ))) ∧
    ((compareScreenshots imgC imgD).hasChanged = true ↔
      100 * (((sampledPositions imgC.data.length).countP
          (fun i => pixelDiffers imgC.data imgD.data i) : ℚ)) /
        (((sampledPositions imgC.data.length).length : ℚ)) > 5) :=
  compareScreenshots_percentage_formula imgC imgD rfl rfl (by decide) (by decide)
    (by decide) (by decide)

/-- On the fully different 1 by 1 pair the code returns 400 percent: the
single sampled position differs, and the divisor is 1/4 rather than 1. -/
theorem imgAB_changePercentage : (compareScreenshots imgA imgB).changePercentage = 400 := by
  have hd : diffPixels imgA.data imgB.data = 1 := by decide
  have hlenA : imgA.data.length = 4 := by decide
  rw [compareScreenshots_eq_dims imgA imgB rfl rfl]
  show round2 (((diffPixels imgA.data imgB.data : ℚ) /
      ((imgA.data.length : ℚ) / 4 / 4)) * 100) = 400
  rw [hd, hlenA]
  norm_num [round2, round_eq]

/-- Counterexample to C1 as stated: on a 1 by 1 pair the single sampled
position differs, so the claimed value is 100 * 1 / 1 = 100, but the code
divides by width*height/4 = 0.25 and returns 400. -/
theorem compareScreenshots_denominator_counterexample :
    (compareScreenshots imgA imgB).changePercentage = 400 ∧
    round2 (100 * (((sampledPositions imgA.data.length).countP
        (fun i => pixelDiffers imgA.data imgB.data i) : ℚ)) /
      (((sampledPositions imgA.data.length).length : ℚ))) = 100 ∧
    (compareScreenshots imgA imgB).changePercentage ≠
      round2 (100 * (((sampledPositions imgA.data.length).countP
          (fun i => pixelDiffers imgA.data imgB.data i) : ℚ)) /
        (((sampledPositions imgA.data.length).length : ℚ))) := by
  have hcount : (sampledPositions imgA.data.length).countP
      (fun i => pixelDiffers imgA.data imgB.data i) = 1 := by decide
  have hlen : (sampledPositions imgA.data.length).length = 1 := by decide
  have h2 : round2 (100 * (((sampledPositions imgA.data.length).countP
      (fun i => pixelDiffers imgA.data imgB.data i) : ℚ)) /
      (((sampledPositions imgA.data.length).length : ℚ))) = 100 := by
    rw [hcount, hlen]
    norm_num [round2, round_eq]
  refine ⟨imgAB_changePercentage, h2, ?_⟩
  rw [imgAB_changePercentage, h2]
  norm_num

/-- C5 (amended): for equal-dimension samples the returned changePercentage
is never negative, and it is at most 100 whenever the pixel count
width*height is divisible by 4 (the pixel sampling stride); for other sizes
it can exceed 100 because the divisor width*height/4 undercounts the sampled
positions (see the counterexample). -/
theorem compareScreenshots_percentage_bounds (ref cur : ImageData)
    (hw : ref.width = cur.width) (hh : ref.height = cur.height)
    (hr : ref.data.length = 4 * ref.width * ref.height)
    (hc : cur.data.length = 4 * cur.width * cur.height)
    (hpos : 0 < ref.width * ref.height) :
    0 ≤ (compareScreenshots ref cur).changePercentage ∧
    (4 ∣ ref.width * ref.height → (compareScreenshots ref cur).changePercentage ≤ 100) := by
  have hlen : cur.data.length = ref.data.length := by rw [hr, hc, hw, hh]
  rw [compareScreenshots_eq_dims ref cur hw hh]
  constructor
  · show 0 ≤ round2 _
    have hq0 : 0 ≤ ((diffPixels ref.data cur.data : ℚ) /
        ((ref.data.length : ℚ) / 4 / 4)) * 100 := by
      apply mul_nonneg
      · apply div_nonneg (Nat.cast_nonneg _)
        positivity
      · norm_num
    calc (0 : ℚ) = round2 0 := round2_zero.symm
    _ ≤ _ := round2_mono hq0
  · intro hdvd
    obtain ⟨k, hk⟩ := hdvd
    have hlen16 : ref.data.length = 16 * k := by rw [hr, mul_assoc, hk]; ring
    rw [hk] at hpos
    have hkpos : 0 < k := by omega
    have hkq : ((ref.data.length : ℚ) / 4 / 4) = (k : ℚ) := by
      rw [hlen16]
      push_cast
      ring
    have hdle : diffPixels ref.data cur.data ≤ k := by
      rw [diffPixels_eq_countP ref.data cur.data hlen]
      have h1 : (sampledPositions ref.data.length).countP
          (fun x => pixelDiffers ref.data cur.data x) ≤
          (sampledPositions ref.data.length).length := List.countP_le_length _
      have h2 : (sampledPositions ref.data.length).length = k := by
        rw [sampledPositions_length, hlen16]
        unfold itersFrom
        omega
      omega
    have hq100 : ((diffPixels ref.data cur.data : ℚ) /
        ((ref.data.length : ℚ) / 4 / 4)) * 100 ≤ 100 := by
      rw [hkq]
      have hdq : (diffPixels ref.data cur.data : ℚ) ≤ (k : ℚ) := by exact_mod_cast hdle
      have hkq0 : (0 : ℚ) < (k : ℚ) := by exact_mod_cast hkpos
      have hdiv : (diffPixels ref.data cur.data : ℚ) / (k : ℚ) ≤ 1 :=
        (div_le_one hkq0).mpr hdq
      calc (diffPixels ref.data cur.data : ℚ) / (k : ℚ) * 100 ≤ 1 * 100 :=
        mul_le_mul_of_nonneg_right hdiv (by norm_num)
      _ = 100 := by norm_num
    have hfin := round2_mono hq100
    rw [round2_hundred] at hfin
    exact hfin

/-- Witness for C5 (amended) at the 2 by 2 pair imgC, imgD: the percentage
is within the bounds and the pixel count 4 is divisible by 4. -/
theorem compareScreenshots_percentage_bounds_witness :
    0 ≤ (compareScreenshots imgC imgD).changePercentage ∧
    (4 ∣ imgC.width * imgC.height → (compareScreenshots imgC imgD).changePercentage ≤ 100) :=
  compareScreenshots_percentage_bounds imgC imgD rfl rfl (by decide) (by decide) (by decide)

/-- Counterexample to C5 as stated: on a fully different 1 by 1 pair (pixel
count 1, not divisible by the stride 4) the returned changePercentage is
400, outside the interval from 0 to 100. -/
theorem compareScreenshots_percentage_exceeds_100 :
    imgA.width = imgB.width ∧ imgA.height = imgB.height ∧
    (compareScreenshots imgA imgB).changePercentage = 400 ∧
    ¬((compareScreenshots imgA imgB).changePercentage ≤ 100) := by
  refine ⟨rfl, rfl, imgAB_changePercentage, ?_⟩
  rw [imgAB_changePercentage]
  norm_num

end SlotWatch
